import Mathlib

/-!
Verification of the insureflow-frontend policy/claim lifecycle manager.

The definitions below shallowly embed the TypeScript sources:
`src/types/index.ts`, `src/api/services.ts`, `src/pages/Claims.tsx`,
`src/pages/Policies.tsx` and `src/context/AuthContext.tsx`.

Conventions: JavaScript numbers are modelled as `ℚ`; a number that can be
`NaN` or `undefined` (for example a form field read with `valueAsNumber`) is
modelled as `Option ℚ` with `none` for the missing/`NaN` value. JavaScript
truthiness is made explicit at each use site (a string is truthy when present
and non-empty, a number when present and nonzero).
-/

namespace InsureFlow

/-- Policy lifecycle status, from `PolicyStatus` in `src/types/index.ts`. -/
inductive PolicyStatus
  | ACTIVE | SUSPENDED | CANCELLED | EXPIRED
  deriving DecidableEq, Repr

/-- Claim lifecycle status, from `ClaimStatus` in `src/types/index.ts`. -/
inductive ClaimStatus
  | DRAFT | SUBMITTED | APPROVED | DENIED
  deriving DecidableEq, Repr

/-- A JavaScript number that may be `NaN` or `undefined` (`none`). -/
abbrev JsNumber := Option ℚ

/-- Policy record, from `Policy` in `src/types/index.ts`. -/
structure Policy where
  policyId : String
  userId : String
  status : PolicyStatus
  coverageAmount : ℚ
  premium : ℚ
  termMonths : ℚ
  createdAt : String
  updatedAt : String
  suspendedReason : Option String
  deriving DecidableEq, Repr

/-- Claim record, from `Claim` in `src/types/index.ts`. -/
structure Claim where
  claimId : String
  policyId : String
  status : ClaimStatus
  description : String
  payoutAmount : Option ℚ
  createdAt : String
  updatedAt : String
  deriving DecidableEq, Repr

/-- Presign response, from `PresignedUpload` in `src/types/index.ts`;
`contentType` is optional and may be null (`none`). -/
structure PresignedUpload where
  url : String
  key : String
  contentType : Option String
  deriving DecidableEq, Repr

/-- HTTP method of a collaborator request. -/
inductive Method
  | GET | POST | PUT
  deriving DecidableEq, Repr

/-- A collaborator request with a typed body, as assembled by the helper
functions in `src/api/services.ts`. -/
structure Request (β : Type) where
  method : Method
  path : String
  body : β
  deriving DecidableEq, Repr

/-- Body of `createPolicy` in `src/api/services.ts` (lines 24-30): exactly the
fields `userId`, `coverageAmount`, `premium`, `termMonths`, `quoteId`. -/
structure CreatePolicyBody where
  userId : String
  coverageAmount : ℚ
  premium : ℚ
  termMonths : ℚ
  quoteId : Option String
  deriving DecidableEq, Repr

/-- Embeds `createPolicy` from `src/api/services.ts`: `POST /policies`. -/
def createPolicy (payload : CreatePolicyBody) : Request CreatePolicyBody :=
  ⟨.POST, "/policies", payload⟩

/-- Body of `renewPolicy` in `src/api/services.ts`. -/
structure RenewBody where
  extendMonths : ℚ
  deriving DecidableEq, Repr

/-- Embeds `renewPolicy`: `POST /policies/{id}/renew`. -/
def renewPolicy (policyId : String) (extendMonths : ℚ) : Request RenewBody :=
  ⟨.POST, "/policies/" ++ policyId ++ "/renew", ⟨extendMonths⟩⟩

/-- Body of `suspendPolicy` in `src/api/services.ts`. -/
structure SuspendBody where
  reason : String
  deriving DecidableEq, Repr

/-- Embeds `suspendPolicy`: `POST /policies/{id}/suspend` with the reason. -/
def suspendPolicy (policyId : String) (reason : String) : Request SuspendBody :=
  ⟨.POST, "/policies/" ++ policyId ++ "/suspend", ⟨reason⟩⟩

/-- Embeds `reinstatePolicy`: `POST /policies/{id}/reinstate`, empty body. -/
def reinstatePolicy (policyId : String) : Request Unit :=
  ⟨.POST, "/policies/" ++ policyId ++ "/reinstate", ()⟩

/-- Body of `createClaim` in `src/api/services.ts`. -/
structure CreateClaimBody where
  policyId : String
  description : String
  deriving DecidableEq, Repr

/-- Embeds `createClaim`: `POST /claims`. -/
def createClaim (payload : CreateClaimBody) : Request CreateClaimBody :=
  ⟨.POST, "/claims", payload⟩

/-- Embeds `submitClaim`: `POST /claims/{id}/submit`, empty body. -/
def submitClaim (claimId : String) : Request Unit :=
  ⟨.POST, "/claims/" ++ claimId ++ "/submit", ()⟩

/-- Body of `adjudicateClaim` in `src/api/services.ts` (lines 65-71):
`payoutAmount` is optional. -/
structure AdjudicateBody where
  decision : ClaimStatus
  payoutAmount : Option ℚ
  deriving DecidableEq, Repr

/-- Embeds `adjudicateClaim`: `POST /claims/{id}/adjudicate`. -/
def adjudicateClaim (claimId : String) (payload : AdjudicateBody) :
    Request AdjudicateBody :=
  ⟨.POST, "/claims/" ++ claimId ++ "/adjudicate", payload⟩

/-- Input of `calculateQuote`, from `QuoteInput` in `src/types/index.ts`. -/
structure QuoteInput where
  age : ℚ
  coverageAmount : ℚ
  riskFactors : List String
  deriving DecidableEq, Repr

/-- Embeds `calculateQuote`: `POST /quote/calculate` (on the lambda base
path). -/
def calculateQuote (payload : QuoteInput) : Request QuoteInput :=
  ⟨.POST, "/quote/calculate", payload⟩

/-- Body of `presignClaimUpload` in `src/api/services.ts` (line 85). -/
structure PresignUploadBody where
  filename : String
  contentType : Option String
  deriving DecidableEq, Repr

/-- Embeds `presignClaimUpload`: `POST /docs/{claimId}/presign-upload`. -/
def presignClaimUpload (claimId : String) (payload : PresignUploadBody) :
    Request PresignUploadBody :=
  ⟨.POST, "/docs/" ++ claimId ++ "/presign-upload", payload⟩

/-- Parsed values of the adjudicate form, from `AdjudicateInput` in
`src/pages/Claims.tsx` (the inferred type of `adjudicateSchema`). -/
structure AdjudicateInput where
  decision : ClaimStatus
  payoutAmount : Option ℚ
  deriving DecidableEq, Repr

/-- Raw values of the adjudicate form before zod parsing. The payout field is
`none` when unmounted (`undefined`, which the optional schema accepts) and
`some none` when mounted but empty (`valueAsNumber` yields `NaN`). -/
structure AdjudicateRaw where
  decision : ClaimStatus
  payoutAmount : Option JsNumber
  deriving DecidableEq, Repr

/-- Embeds `adjudicateSchema` from `src/pages/Claims.tsx` (lines 36-41):
`decision` must be `APPROVED` or `DENIED`; `payoutAmount` is optional, but a
present value must not be `NaN` (the `payoutField` refine) and must be
nonnegative. -/
def adjudicateSchemaParse (raw : AdjudicateRaw) : Option AdjudicateInput :=
  if raw.decision = .APPROVED ∨ raw.decision = .DENIED then
    match raw.payoutAmount with
    | none => some ⟨raw.decision, none⟩
    | some none => none
    | some (some q) => if 0 ≤ q then some ⟨raw.decision, some q⟩ else none
  else none

/-- Embeds the adjudicate form `onSubmit` handler (`src/pages/Claims.tsx`
lines 323-331): the mutation receives the entered `payoutAmount` only when the
decision is `APPROVED`, and `0` otherwise. -/
def adjudicateOnSubmit (claimId : String) (values : AdjudicateInput) :
    Request AdjudicateBody :=
  adjudicateClaim claimId
    ⟨values.decision,
     if values.decision = .APPROVED then values.payoutAmount else some 0⟩

/-- Full adjudicate submission pipeline: `handleSubmit` runs the zod resolver
and calls `onSubmit` only on parsed values; no request is produced when the
schema rejects the form. -/
def adjudicateFormSubmit (claimId : String) (raw : AdjudicateRaw) :
    Option (Request AdjudicateBody) :=
  (adjudicateSchemaParse raw).map (adjudicateOnSubmit claimId)

/-- Embeds the `disabled` prop of the Submit row action in the claims table
(`src/pages/Claims.tsx` line 231): `row.status !== "DRAFT"`. -/
def submitButtonDisabled (row : Claim) : Bool :=
  decide (row.status ≠ .DRAFT)

/-- Embeds the guard of the shared `Button` component: the rendered button is
disabled when `disabled || isLoading`, and a disabled button never fires its
`onClick` handler. -/
def buttonFires (disabled isLoading : Bool) : Bool :=
  !(disabled || isLoading)

/-- Clicking Submit on a claim row (`openAction(row, "submit")`, which is the
only way to reach the submit dialog for that row) and confirming the dialog
issues `submitClaim row.claimId`; nothing is issued when the row button does
not fire. The row button passes no `isLoading` prop, so it is `false`. -/
def submitClickRequest (row : Claim) : Option (Request Unit) :=
  if buttonFires (submitButtonDisabled row) false then
    some (submitClaim row.claimId)
  else none

/-- Embeds the header construction of `handleUpload` (`src/pages/Claims.tsx`
lines 149-154): the `Content-Type` header is set exactly when
`presign.contentType` is truthy, that is present and non-empty. -/
def uploadHeaders (presign : PresignedUpload) : List (String × String) :=
  match presign.contentType with
  | some ct => if ct ≠ "" then [("Content-Type", ct)] else []
  | none => []

/-- The PUT transfer performed by `handleUpload` (`src/pages/Claims.tsx`
lines 156-160): method `PUT`, the presigned `url`, and the headers built by
`uploadHeaders`. -/
structure UploadPut where
  method : Method
  url : String
  headers : List (String × String)
  deriving DecidableEq, Repr

/-- Embeds the `fetch(presign.url, { method: "PUT", headers, body: file })`
call of `handleUpload`. -/
def uploadPut (presign : PresignedUpload) : UploadPut :=
  ⟨.PUT, presign.url, uploadHeaders presign⟩

/-- Content-Type header actually sent on the PUT transfer, if any. -/
def headerContentType (r : UploadPut) : Option String :=
  r.headers.lookup "Content-Type"

/-- A browser file as used by `handleUpload`: `name` and `type`. -/
structure JsFile where
  name : String
  type : String
  deriving DecidableEq, Repr

/-- Embeds the presign request of `handleUpload` (`src/pages/Claims.tsx`
lines 144-147): the declared content type is the file's type. -/
def uploadPresignRequest (claimId : String) (file : JsFile) :
    Request PresignUploadBody :=
  presignClaimUpload claimId ⟨file.name, some file.type⟩

/-- Rational that is a JavaScript integer (`Number.isInteger`, checked by the
zod `.int()` refinements). -/
def isJsInt (q : ℚ) : Bool :=
  q.den == 1

/-- Raw values of the create-policy form before zod parsing
(`src/pages/Policies.tsx`): numeric fields are read with `valueAsNumber` and
may be `NaN` (`none`). -/
structure CreatePolicyRaw where
  userId : String
  age : JsNumber
  coverageAmount : JsNumber
  premium : JsNumber
  termMonths : JsNumber
  quoteId : Option String
  deriving DecidableEq, Repr

/-- Parsed values of the create-policy form, from `CreatePolicyInput` in
`src/pages/Policies.tsx` (the inferred type of `createPolicySchema`). -/
structure CreatePolicyInput where
  userId : String
  age : ℚ
  coverageAmount : ℚ
  premium : ℚ
  termMonths : ℚ
  quoteId : Option String
  deriving DecidableEq, Repr

/-- Embeds `createPolicySchema` from `src/pages/Policies.tsx` (lines 24-40):
`userId` needs length at least 3; `age` must be an integer in `[18, 100]`;
`coverageAmount` at least 1000; `premium` positive and at least `0.01`;
`termMonths` an integer in `[12, 360]`; `quoteId` optional. Each numeric field
also carries the `numericField` refine rejecting `NaN`. -/
def createPolicySchemaParse (raw : CreatePolicyRaw) : Option CreatePolicyInput :=
  match raw.age, raw.coverageAmount, raw.premium, raw.termMonths with
  | some age, some coverage, some premium, some term =>
    if 3 ≤ raw.userId.length ∧
        isJsInt age = true ∧ 18 ≤ age ∧ age ≤ 100 ∧
        1000 ≤ coverage ∧
        0 < premium ∧ (1/100 : ℚ) ≤ premium ∧
        isJsInt term = true ∧ 12 ≤ term ∧ term ≤ 360 then
      some ⟨raw.userId, age, coverage, premium, term, raw.quoteId⟩
    else none
  | _, _, _, _ => none

/-- Embeds the create-policy form `onSubmit` handler (`src/pages/Policies.tsx`
lines 247-255): the mutation receives only `userId`, `coverageAmount`,
`premium`, `termMonths` and `quoteId`; the validated `age` is dropped. -/
def createPolicyOnSubmit (values : CreatePolicyInput) :
    Request CreatePolicyBody :=
  createPolicy
    ⟨values.userId, values.coverageAmount, values.premium, values.termMonths,
     values.quoteId⟩

/-- Full create-policy submission pipeline: `handleSubmit` runs the zod
resolver and calls `onSubmit` only on parsed values; no request is produced
when the schema rejects the form. -/
def createPolicyFormSubmit (raw : CreatePolicyRaw) :
    Option (Request CreatePolicyBody) :=
  (createPolicySchemaParse raw).map createPolicyOnSubmit

/-- Parsed values of the suspend form, from `SuspendInput` in
`src/pages/Policies.tsx`. -/
structure SuspendInput where
  reason : String
  deriving DecidableEq, Repr

/-- Embeds `suspendSchema` from `src/pages/Policies.tsx` (line 51):
`z.string().min(4)` accepts the reason exactly when its length is at least
4. -/
def suspendSchemaParse (reason : String) : Option SuspendInput :=
  if 4 ≤ reason.length then some ⟨reason⟩ else none

/-- Full suspend submission pipeline (`src/pages/Policies.tsx` lines 369-371
composed with `suspendPolicy`): a request carrying the reason is issued to
`POST /policies/{id}/suspend` exactly when the schema accepts the reason. -/
def suspendFormSubmit (policyId : String) (reason : String) :
    Option (Request SuspendBody) :=
  (suspendSchemaParse reason).map (fun v => suspendPolicy policyId v.reason)

/-- Embeds the auto-quote `useEffect` of the create-policy form
(`src/pages/Policies.tsx` lines 99-108). The guard is
`age && age >= 18 && age <= 100 && coverageAmount && coverageAmount >= 1000 &&
termMonths && termMonths >= 12`, where a watched field is `NaN` (`none`,
falsy) until filled and a number is truthy when nonzero. When the guard
passes, `calculateQuote` is invoked with the entered age and coverage and an
empty `riskFactors` list. -/
def autoQuoteEffect (age coverageAmount termMonths : JsNumber) :
    Option (Request QuoteInput) :=
  match age, coverageAmount, termMonths with
  | some a, some c, some t =>
    if a ≠ 0 ∧ 18 ≤ a ∧ a ≤ 100 ∧ c ≠ 0 ∧ 1000 ≤ c ∧ t ≠ 0 ∧ 12 ≤ t then
      some (calculateQuote ⟨a, c, []⟩)
    else none
  | _, _, _ => none

/-- Decoded JWT claims, from the `JwtClaims` interface in
`src/context/AuthContext.tsx`: each claim may be absent; `exp` is in epoch
seconds. The `role` is kept as a string since the decoder performs no
validation of its value. -/
structure JwtClaims where
  sub : Option String
  role : Option String
  userId : Option String
  exp : Option ℚ
  deriving DecidableEq, Repr

/-- A bearer token as seen through `jwtDecode`: `none` when decoding throws,
otherwise the decoded claim set. -/
abbrev Token := Option JwtClaims

/-- Authenticated user, from `AuthUser` in `src/types/index.ts`. -/
structure AuthUser where
  username : String
  role : String
  userId : String
  deriving DecidableEq, Repr

/-- Embeds `parseToken` from `src/context/AuthContext.tsx` (lines 34-49):
decoding failure yields `null`; a decoded token is rejected when any of
`role`, `sub`, `userId` is falsy (absent or the empty string). Expiry is not
examined here. -/
def parseToken : Token → Option AuthUser
  | none => none
  | some c =>
    match c.sub, c.role, c.userId with
    | some sub, some role, some userId =>
      if sub ≠ "" ∧ role ≠ "" ∧ userId ≠ "" then
        some ⟨sub, role, userId⟩
      else none
    | _, _, _ => none

/-- Session state produced at startup: the stored token (if kept) and the
parsed user. -/
structure StoredAuth where
  token : Option Token
  user : Option AuthUser
  deriving DecidableEq, Repr

/-- Embeds `readStoredAuth` from `src/context/AuthContext.tsx` (lines 51-74).
`raw` is the token recovered from local storage (`none` when the key is
absent or unreadable) and `now` is `Date.now()` in milliseconds. A stored
token is dropped when `parseToken` rejects it, or when its `exp` claim is
truthy (present and nonzero) and `exp * 1000 < now`. -/
def readStoredAuth (raw : Option Token) (now : ℚ) : StoredAuth :=
  match raw with
  | none => ⟨none, none⟩
  | some t =>
    match parseToken t with
    | none => ⟨none, none⟩
    | some u =>
      match t with
      | none => ⟨none, none⟩
      | some c =>
        match c.exp with
        | some e =>
          if e ≠ 0 ∧ e * 1000 < now then ⟨none, none⟩
          else ⟨some (some c), some u⟩
        | none => ⟨some (some c), some u⟩

/-- Embeds `login` from `src/context/AuthContext.tsx` (lines 97-106): the
access token returned by the collaborator is run through `parseToken` only; a
parse failure throws, and a successfully parsed user is installed with no
expiry check. -/
def login (accessToken : Token) : Except String AuthUser :=
  match parseToken accessToken with
  | none => .error "Unable to parse login token"
  | some u => .ok u

/-- Truthiness-guarded expiry of a token, from the guard
`claims.exp && claims.exp * 1000 < Date.now()` in `readStoredAuth`. -/
def tokenExpiredTruthy (t : Token) (now : ℚ) : Prop :=
  ∃ c e, t = some c ∧ c.exp = some e ∧ e ≠ 0 ∧ e * 1000 < now

/-- Toast variant, from the `showToast` calls in the pages. -/
inductive ToastVariant
  | success | error | warning
  deriving DecidableEq, Repr

/-- Observable effect run by a mutation callback: invalidation of a react-query
key, a toast notification, closing the modal (which also resets the forms and
selection, per `closeModal`), or writing a form field. -/
inductive Effect
  | invalidateQueries (queryKey : String)
  | showToast (title : String) (variant : ToastVariant)
  | closeModal
  | setFormValue (field : String)
  deriving DecidableEq, Repr

/-- Effect is a toast notification. -/
def Effect.isToast : Effect → Bool
  | .showToast _ _ => true
  | _ => false

/-- A react-query mutation as configured in the pages: its `onSuccess` and
`onError` effect lists, in source order. -/
structure MutationSpec where
  name : String
  onSuccess : List Effect
  onError : List Effect
  deriving DecidableEq, Repr

/-- Embeds `createMutation` of `src/pages/Claims.tsx` (lines 67-75). -/
def createClaimMutation : MutationSpec :=
  ⟨"createClaim",
   [.invalidateQueries "claims", .showToast "Claim created" .success,
    .closeModal],
   [.showToast "Failed to create claim" .error]⟩

/-- Embeds `submitMutation` of `src/pages/Claims.tsx` (lines 77-85). -/
def submitClaimMutation : MutationSpec :=
  ⟨"submitClaim",
   [.invalidateQueries "claims", .showToast "Claim submitted" .success,
    .closeModal],
   [.showToast "Submission failed" .error]⟩

/-- Embeds `adjudicateMutation` of `src/pages/Claims.tsx` (lines 87-96). -/
def adjudicateClaimMutation : MutationSpec :=
  ⟨"adjudicateClaim",
   [.invalidateQueries "claims", .showToast "Claim reviewed" .success,
    .closeModal],
   [.showToast "Failed to review claim" .error]⟩

/-- Embeds `createMutation` of `src/pages/Policies.tsx` (lines 120-128). -/
def createPolicyMutation : MutationSpec :=
  ⟨"createPolicy",
   [.invalidateQueries "policies", .showToast "Policy created" .success,
    .closeModal],
   [.showToast "Failed to create policy" .error]⟩

/-- Embeds `renewMutation` of `src/pages/Policies.tsx` (lines 130-139). -/
def renewPolicyMutation : MutationSpec :=
  ⟨"renewPolicy",
   [.invalidateQueries "policies", .showToast "Policy renewed" .success,
    .closeModal],
   [.showToast "Renewal failed" .error]⟩

/-- Embeds `suspendMutation` of `src/pages/Policies.tsx` (lines 141-149). -/
def suspendPolicyMutation : MutationSpec :=
  ⟨"suspendPolicy",
   [.invalidateQueries "policies", .showToast "Policy suspended" .warning,
    .closeModal],
   [.showToast "Could not suspend policy" .error]⟩

/-- Embeds `reinstateMutation` of `src/pages/Policies.tsx` (lines 151-159). -/
def reinstatePolicyMutation : MutationSpec :=
  ⟨"reinstatePolicy",
   [.invalidateQueries "policies", .showToast "Policy reinstated" .success,
    .closeModal],
   [.showToast "Reinstate failed" .error]⟩

/-- Embeds `quoteMutation` of `src/pages/Policies.tsx` (lines 84-92); it is a
read-only pricing call, not one of the mutating lifecycle actions. -/
def quoteMutation : MutationSpec :=
  ⟨"calculateQuote",
   [.setFormValue "premium"],
   [.showToast "Failed to calculate premium" .error]⟩

/-- The seven mutating lifecycle actions, each paired with the list query key
the spec says it affects (claims actions affect the list under key
`"claims"`, policy actions the list under key `"policies"`). -/
def mutationQueryKeys : List (MutationSpec × String) :=
  [(createClaimMutation, "claims"), (submitClaimMutation, "claims"),
   (adjudicateClaimMutation, "claims"), (createPolicyMutation, "policies"),
   (renewPolicyMutation, "policies"), (suspendPolicyMutation, "policies"),
   (reinstatePolicyMutation, "policies")]

/-- The seven mutating lifecycle actions. -/
def mutatingActions : List MutationSpec :=
  mutationQueryKeys.map Prod.fst

end InsureFlow

namespace InsureFlow

/-- C1: for every adjudication submission accepted by the form schema, a
`DENIED` decision forces the `payoutAmount` sent in the adjudicate request to
`0` regardless of the entered payout, and only an `APPROVED` decision forwards
the entered payout amount. -/
theorem adjudicate_denied_forces_zero_payout (claimId : String)
    (raw : AdjudicateRaw) (req : Request AdjudicateBody)
    (h : adjudicateFormSubmit claimId raw = some req) :
    (raw.decision = .DENIED → req.body.payoutAmount = some 0) ∧
    (raw.decision = .APPROVED →
      ∀ q : ℚ, raw.payoutAmount = some (some q) →
        req.body.payoutAmount = some q) := by
  constructor
  · intro hd
    rcases hp : raw.payoutAmount with _ | (_ | q)
    · simp [adjudicateFormSubmit, adjudicateSchemaParse, hd, hp] at h
      subst h
      simp [adjudicateOnSubmit, adjudicateClaim]
    · simp [adjudicateFormSubmit, adjudicateSchemaParse, hd, hp] at h
    · by_cases hq : (0:ℚ) ≤ q
      · simp [adjudicateFormSubmit, adjudicateSchemaParse, hd, hp, hq] at h
        subst h
        simp [adjudicateOnSubmit, adjudicateClaim]
      · simp [adjudicateFormSubmit, adjudicateSchemaParse, hd, hp, hq] at h
  · intro hd q hq
    by_cases hq0 : (0:ℚ) ≤ q
    · simp [adjudicateFormSubmit, adjudicateSchemaParse, hd, hq, hq0] at h
      subst h
      simp [adjudicateOnSubmit, adjudicateClaim]
    · simp [adjudicateFormSubmit, adjudicateSchemaParse, hd, hq, hq0] at h

/-- Witness for C1: the concrete denied submission with an entered payout of
500 produces a request whose payout is 0. -/
theorem adjudicate_denied_forces_zero_payout_witness :
    (adjudicateOnSubmit "claim-1"
      ⟨ClaimStatus.DENIED, some 500⟩).body.payoutAmount = some 0 :=
  (adjudicate_denied_forces_zero_payout "claim-1"
    ⟨ClaimStatus.DENIED, some (some 500)⟩
    (adjudicateOnSubmit "claim-1" ⟨ClaimStatus.DENIED, some 500⟩)
    (by decide)).1 rfl

/-- C2: the Submit row action is enabled, and can lead to a submit request,
exactly when the claim's status is `DRAFT`; for any other status the control
is disabled and no submit request can be issued from that row. -/
theorem submit_enabled_iff_draft (row : Claim) :
    (submitButtonDisabled row = false ↔ row.status = ClaimStatus.DRAFT) ∧
    ((submitClickRequest row).isSome ↔ row.status = ClaimStatus.DRAFT) := by
  constructor
  · simp [submitButtonDisabled]
  · simp only [submitClickRequest, buttonFires, submitButtonDisabled]
    by_cases hs : row.status = ClaimStatus.DRAFT <;> simp [hs]

/-- C5 counterexample: a presign response whose `contentType` field is present
but the empty string. The claim requires the PUT transfer to carry a
`Content-Type` header equal to that field whenever it is present, but the
JavaScript truthiness guard skips the header, so the transfer carries no
`Content-Type` header at all. -/
theorem upload_content_type_present_but_header_missing :
    (PresignedUpload.mk "https://storage.example/object" "k1"
        (some "")).contentType = some "" ∧
    headerContentType (uploadPut
      (PresignedUpload.mk "https://storage.example/object" "k1"
        (some ""))) = none := by
  constructor <;> rfl

/-- C5 amended: the `Content-Type` header sent on the PUT transfer equals the
`contentType` of the presign response whenever that field is present and
non-empty; when the field is omitted (or null) or is the empty string, no
`Content-Type` header is sent. -/
theorem upload_content_type_roundtrip (presign : PresignedUpload) :
    (∀ ct : String, presign.contentType = some ct → ct ≠ "" →
      headerContentType (uploadPut presign) = some ct) ∧
    ((presign.contentType = none ∨ presign.contentType = some "") →
      headerContentType (uploadPut presign) = none) := by
  constructor
  · intro ct hct hne
    simp [headerContentType, uploadPut, uploadHeaders, hct, hne, List.lookup]
  · rintro (hct | hct) <;>
      simp [headerContentType, uploadPut, uploadHeaders, hct]

/-- Witness for C5 amended: a presign response declaring `image/png` leads to
a PUT transfer whose `Content-Type` header is `image/png`. -/
theorem upload_content_type_roundtrip_witness :
    headerContentType (uploadPut
      (PresignedUpload.mk "https://storage.example/object" "k1"
        (some "image/png"))) = some "image/png" :=
  (upload_content_type_roundtrip
    (PresignedUpload.mk "https://storage.example/object" "k1"
      (some "image/png"))).1 "image/png" rfl (by decide)

/-- C3 counterexample: a create-policy form with coverage 500, premium 10 and
term 24 satisfies the constraints `coverageAmount > 0`, `termMonths > 0` and
`premium > 0`, yet local validation rejects it (coverage is below 1000) and no
create request is produced, contradicting the claim that every input meeting
those constraints passes validation. -/
theorem create_policy_positive_input_rejected :
    ((0:ℚ) < 500 ∧ (0:ℚ) < 24 ∧ (0:ℚ) < 10) ∧
    createPolicyFormSubmit
      (CreatePolicyRaw.mk "user-001" (some 30) (some 500) (some 10) (some 24)
        none) = none := by
  constructor
  · exact ⟨by norm_num, by norm_num, by norm_num⟩
  · decide

/-- C3 amended: create-policy local validation passes, and the create request
is produced, exactly when `userId` has length at least 3, `age` is an integer
in `[18, 100]`, `coverageAmount` is at least 1000, `premium` is at least
`0.01`, and `termMonths` is an integer in `[12, 360]`; otherwise no request is
sent to the collaborator. -/
theorem create_policy_validation_characterization (raw : CreatePolicyRaw) :
    (createPolicyFormSubmit raw).isSome = true ↔
      (3 ≤ raw.userId.length ∧
       (∃ a, raw.age = some a ∧ isJsInt a = true ∧ 18 ≤ a ∧ a ≤ 100) ∧
       (∃ c, raw.coverageAmount = some c ∧ 1000 ≤ c) ∧
       (∃ p, raw.premium = some p ∧ (1/100 : ℚ) ≤ p) ∧
       (∃ t, raw.termMonths = some t ∧ isJsInt t = true ∧ 12 ≤ t ∧
         t ≤ 360)) := by
  constructor
  · intro hsome
    unfold createPolicyFormSubmit createPolicySchemaParse at hsome
    split at hsome
    · rename_i age coverage premium term ha hc hp ht
      split_ifs at hsome with hcond
      · obtain ⟨h1, h2, h3, h4, h5, h6, h7, h8, h9, h10⟩ := hcond
        exact ⟨h1, ⟨age, ha, h2, h3, h4⟩, ⟨coverage, hc, h5⟩,
               ⟨premium, hp, h7⟩, ⟨term, ht, h8, h9, h10⟩⟩
      · simp at hsome
    · simp at hsome
  · intro hR
    obtain ⟨h1, ⟨a, ha, h2, h3, h4⟩, ⟨c, hc, h5⟩, ⟨p, hp, h6⟩,
            ⟨t, ht, h7, h8, h9⟩⟩ := hR
    unfold createPolicyFormSubmit createPolicySchemaParse
    rw [ha, hc, hp, ht]
    have h0 : (0:ℚ) < p := lt_of_lt_of_le (by norm_num) h6
    simp [h1, h2, h3, h4, h5, h0, h6, h7, h8, h9]
    linarith

/-- C7 counterexample: the reason `"abc"` is a non-empty string, yet the
suspend form schema rejects it (`z.string().min(4)`) and no suspend request is
issued, contradicting the claim that validation accepts any non-empty
reason. -/
theorem suspend_nonempty_reason_rejected :
    ("abc" ≠ "") ∧ suspendFormSubmit "p1" "abc" = none := by
  constructor
  · decide
  · rfl

/-- C7 amended: the suspend form accepts the reason exactly when its length is
at least 4, and in that case issues `POST /policies/{id}/suspend` carrying
that reason (the ACTIVE → SUSPENDED transition request); shorter reasons
produce no request. -/
theorem suspend_reason_min_length (policyId reason : String) :
    ((suspendFormSubmit policyId reason).isSome = true ↔
      4 ≤ reason.length) ∧
    suspendFormSubmit policyId reason =
      (if 4 ≤ reason.length then
        some ⟨Method.POST, "/policies/" ++ policyId ++ "/suspend", ⟨reason⟩⟩
      else none) := by
  constructor
  · unfold suspendFormSubmit suspendSchemaParse
    split_ifs with h <;> simp [h]
  · unfold suspendFormSubmit suspendSchemaParse suspendPolicy
    split_ifs with h <;> rfl

/-- C9: the policy-creation request body contains exactly `userId`,
`coverageAmount`, `premium`, `termMonths` and `quoteId` taken from the form
values; the validated `age` is never included, so the body is unchanged under
any change of age. -/
theorem create_policy_body_excludes_age (v : CreatePolicyInput) :
    (createPolicyOnSubmit v).body =
      CreatePolicyBody.mk v.userId v.coverageAmount v.premium v.termMonths
        v.quoteId ∧
    (∀ a : ℚ,
      createPolicyOnSubmit { v with age := a } = createPolicyOnSubmit v) :=
  ⟨rfl, fun _ => rfl⟩

/-- C10: the auto-quote effect fires exactly when the entered age is in
`[18, 100]`, the coverage amount is at least 1000 and the term is at least 12
months; and every quote request it sends carries an empty `riskFactors`
list. -/
theorem auto_quote_guard_and_empty_risk_factors
    (age coverageAmount termMonths : JsNumber) :
    ((autoQuoteEffect age coverageAmount termMonths).isSome = true ↔
      ((∃ a, age = some a ∧ 18 ≤ a ∧ a ≤ 100) ∧
       (∃ c, coverageAmount = some c ∧ 1000 ≤ c) ∧
       (∃ t, termMonths = some t ∧ 12 ≤ t))) ∧
    (∀ req, autoQuoteEffect age coverageAmount termMonths = some req →
      req.body.riskFactors = []) := by
  constructor
  · constructor
    · intro hsome
      unfold autoQuoteEffect at hsome
      split at hsome
      · rename_i a c t
        split_ifs at hsome with h
        · obtain ⟨h1, h2, h3, h4, h5, h6, h7⟩ := h
          exact ⟨⟨a, rfl, h2, h3⟩, ⟨c, rfl, h5⟩, ⟨t, rfl, h7⟩⟩
        · simp at hsome
      · simp at hsome
    · intro hR
      obtain ⟨⟨a, ha, h2, h3⟩, ⟨c, hc, h5⟩, ⟨t, ht, h7⟩⟩ := hR
      subst ha
      subst hc
      subst ht
      have h0a : a ≠ 0 := ne_of_gt (lt_of_lt_of_le (by norm_num) h2)
      have h0c : c ≠ 0 := ne_of_gt (lt_of_lt_of_le (by norm_num) h5)
      have h0t : t ≠ 0 := ne_of_gt (lt_of_lt_of_le (by norm_num) h7)
      simp [autoQuoteEffect, h0a, h2, h3, h0c, h5, h0t, h7]
  · intro req hreq
    unfold autoQuoteEffect at hreq
    split at hreq
    · rename_i a c t
      split_ifs at hreq with h
      simp only [Option.some.injEq] at hreq
      subst hreq
      rfl
    · simp at hreq

/-- Witness for C10: with age 30, coverage 50000 and term 12 the effect fires
and the request it sends carries an empty `riskFactors` list. -/
theorem auto_quote_empty_risk_factors_witness :
    (calculateQuote ⟨30, 50000, []⟩).body.riskFactors = [] :=
  (auto_quote_guard_and_empty_risk_factors (some 30) (some 50000)
    (some 12)).2 (calculateQuote ⟨30, 50000, []⟩) (by decide)

/-- C4 counterexample: a token carrying `sub`, `role` and `userId` but an
`exp` of 1000 seconds (far in the past relative to `now` =
1700000000000 ms) is accepted by `login` and the session becomes
authenticated, contradicting the claim that every accepted token is rejected
when expired. The startup path (`readStoredAuth`) does reject the very same
token at the same time. -/
theorem login_accepts_expired_token :
    ((1000:ℚ) * 1000 < 1700000000000) ∧
    login (some (JwtClaims.mk (some "alice") (some "USER") (some "user-1")
      (some 1000))) = .ok (AuthUser.mk "alice" "USER" "user-1") ∧
    readStoredAuth (some (some (JwtClaims.mk (some "alice") (some "USER")
      (some "user-1") (some 1000)))) 1700000000000 =
      StoredAuth.mk none none := by
  refine ⟨by norm_num, rfl, ?_⟩
  norm_num [readStoredAuth, parseToken]
  split <;> rfl

/-- C4 amended: a token read from persistent storage at startup is rejected
(session unauthenticated) exactly when `parseToken` fails — decoding error or
a missing/empty `sub`, `role` or `userId` — or its `exp` claim is truthy
(present and nonzero) and in the past; the token returned by login, however,
is checked only by `parseToken`, so an expired but well-formed login token is
accepted. -/
theorem token_rejection_characterization (t : Token) (now : ℚ) :
    ((readStoredAuth (some t) now).user ≠ none ↔
      (parseToken t ≠ none ∧ ¬ tokenExpiredTruthy t now)) ∧
    ((∃ u, login t = Except.ok u) ↔ parseToken t ≠ none) := by
  constructor
  · cases t with
    | none => simp [readStoredAuth, parseToken, tokenExpiredTruthy]
    | some c =>
      rcases hu : parseToken (some c) with _ | u
      · simp [readStoredAuth, hu, tokenExpiredTruthy]
      · rcases he : c.exp with _ | e
        · simp [readStoredAuth, hu, he, tokenExpiredTruthy]
        · by_cases hx : e ≠ 0 ∧ e * 1000 < now
          · simp [readStoredAuth, hu, he, tokenExpiredTruthy, hx.1, hx.2]
          · simp only [not_and_or, not_not] at hx
            rcases hx with hx | hx <;>
              simp [readStoredAuth, hu, he, tokenExpiredTruthy, hx]
  · rcases hp : parseToken t with _ | u <;> simp [login, hp]

/-- C6: every one of the seven mutating lifecycle actions (create, renew,
suspend and reinstate policy; create, submit and adjudicate claim)
invalidates the affected list query key (`"policies"` or `"claims"`) in its
`onSuccess` callback, so the next read of that list refetches. -/
theorem mutation_success_invalidates_affected_list :
    ∀ p ∈ mutationQueryKeys,
      Effect.invalidateQueries p.2 ∈ p.1.onSuccess := by
  decide

/-- Witness for C6: the create-claim mutation invalidates `"claims"` on
success. -/
theorem mutation_success_invalidates_affected_list_witness :
    Effect.invalidateQueries "claims" ∈ createClaimMutation.onSuccess :=
  mutation_success_invalidates_affected_list (createClaimMutation, "claims")
    (by decide)

/-- C8: the `onError` handler of every mutating lifecycle action only raises
toast notifications — it performs no query invalidation, does not close the
modal, and writes no form state — so a failed request leaves the view in its
prior state. -/
theorem mutation_error_only_toasts :
    ∀ m ∈ mutatingActions, ∀ e ∈ m.onError, e.isToast = true := by
  decide

/-- Witness for C8: the single error effect of the create-claim mutation is a
toast. -/
theorem mutation_error_only_toasts_witness :
    (Effect.showToast "Failed to create claim" ToastVariant.error).isToast
      = true :=
  mutation_error_only_toasts createClaimMutation (by decide)
    (Effect.showToast "Failed to create claim" ToastVariant.error)
    (by decide)

end InsureFlow
